import Mathlib

/-!
Verification of the oxidize-postal binding layer.

The repository is a thin wrapper around the external libpostal engine.
The native parse/expand entry points, the subprocess used by the data
download, and serde's JSON value construction are external collaborators:
they are modelled here as explicit parameters (functions or outcome
values), while every function of the repository itself is translated
directly from its Rust source.
-/

namespace OxidizePostal

/-- The error taxonomy of the binding layer, translated from the
PostalError enum in src/postal/error.rs. -/
inductive PostalError where
  | InvalidInput (message : String) (context : String)
  | LibpostalError (message : String)
  | SerializationError (message : String)
  | ConfigurationError (message : String)
deriving DecidableEq

deriving instance DecidableEq for Except

/-- The Rust str trim: strip leading and trailing whitespace. Stated
structurally on the character list so that concrete instances evaluate. -/
def rustTrim (s : String) : String :=
  ⟨((s.data.dropWhile Char.isWhitespace).reverse.dropWhile Char.isWhitespace).reverse⟩

/-- A parse result: a mapping from component label to value, modelled as
an association list (the native library emits unique keys). -/
abbrev ParsedAddress := List (String × String)

/-- Lookup of a component in a parse result, modelling HashMap get. -/
def getComp (parsed : ParsedAddress) (key : String) : Option String :=
  (parsed.find? (fun p => p.1 == key)).map (fun p => p.2)

/-- Translated from parse_address_with_options in src/postal/parser.rs.
The native libpostal parse entry point is the parameter `native`; its
failure message is a string, as rendered by the Display of the native
error. -/
def parse_address_with_options
    (native : String → Except String ParsedAddress)
    (address : String) : Except PostalError ParsedAddress :=
  if (rustTrim address).isEmpty then
    .error (.InvalidInput
      "Address string is empty or contains only whitespace"
      "Valid address parsing requires a non-empty string with actual address content")
  else
    match native address with
    | .ok parsed => .ok parsed
    | .error e => .error (.LibpostalError ("Failed to parse address: " ++ e))

/-- Translated from parse_address_string in src/postal/parser.rs: it
delegates to parse_address_with_options. -/
def parse_address_string
    (native : String → Except String ParsedAddress)
    (address : String) : Except PostalError ParsedAddress :=
  parse_address_with_options native address

/-- Translated from expand_address_string in src/postal/parser.rs. The
native libpostal expand entry point is the parameter `native`. -/
def expand_address_string
    (native : String → Except String (List String))
    (address : String) : Except PostalError (List String) :=
  if (rustTrim address).isEmpty then
    .error (.InvalidInput
      "Address string is empty or contains only whitespace"
      "Address expansion requires a valid address string to process abbreviations")
  else
    match native address with
    | .ok expanded => .ok expanded
    | .error e => .error (.LibpostalError ("Failed to expand address: " ++ e))

/-- JSON values, at the level serde_json builds them for the two result
shapes the repository serializes (string maps and string sequences). -/
inductive Json where
  | str : String → Json
  | obj : List (String × Json) → Json
  | arr : List Json → Json

/-- serde_json serialization of a parse-result mapping: a JSON object
whose fields are the map entries, values as JSON strings. -/
def serialize_map (m : ParsedAddress) : Json :=
  .obj (m.map (fun p => (p.1, Json.str p.2)))

/-- serde_json serialization of an expansion sequence: a JSON array of
strings, in sequence order. -/
def serialize_seq (l : List String) : Json :=
  .arr (l.map Json.str)

/-- Translated from the to_json helper in src/postal/python_api.rs,
instantiated at HashMap of String to String. Building a JSON value from a
string map cannot fail, so the SerializationError branch is unreachable
here, exactly as with serde_json on this type. -/
def to_json_map (data : ParsedAddress) : Except PostalError Json :=
  .ok (serialize_map data)

/-- Translated from the to_json helper in src/postal/python_api.rs,
instantiated at Vec of String. -/
def to_json_seq (data : List String) : Except PostalError Json :=
  .ok (serialize_seq data)

/-- JSON decoding of a string value. -/
def decode_str : Json → Option String
  | .str s => some s
  | _ => none

/-- JSON decoding of object fields back into a string map. -/
def decode_map_fields : List (String × Json) → Option (List (String × String))
  | [] => some []
  | (k, v) :: rest =>
    match decode_str v, decode_map_fields rest with
    | some s, some tail => some ((k, s) :: tail)
    | _, _ => none

/-- JSON decoding of an object back into a string map. -/
def decode_map : Json → Option (List (String × String))
  | .obj fields => decode_map_fields fields
  | _ => none

/-- JSON decoding of array elements back into a string sequence. -/
def decode_seq_elems : List Json → Option (List String)
  | [] => some []
  | j :: rest =>
    match decode_str j, decode_seq_elems rest with
    | some s, some tail => some (s :: tail)
    | _, _ => none

/-- JSON decoding of an array back into a string sequence, order kept. -/
def decode_seq : Json → Option (List String)
  | .arr elems => decode_seq_elems elems
  | _ => none

/-- Translated from parse_address_to_json in src/postal/python_api.rs:
parse, then serialize the mapping to JSON. -/
def parse_address_to_json
    (native : String → Except String ParsedAddress)
    (address : String) : Except PostalError Json :=
  match parse_address_string native address with
  | .error e => .error e
  | .ok parsed => to_json_map parsed

/-- Translated from expand_address_to_json in src/postal/python_api.rs:
expand, then serialize the sequence to JSON. -/
def expand_address_to_json
    (native : String → Except String (List String))
    (address : String) : Except PostalError Json :=
  match expand_address_string native address with
  | .error e => .error e
  | .ok expanded => to_json_seq expanded

/-- The sequence of parts pushed by normalize_address in
src/postal/python_api.rs, in source order: house_number, road,
"Unit " ++ unit, city, upper-cased state, postcode, upper-cased country,
each only when present in the parse result. -/
def normalizedParts (parsed : ParsedAddress) : List String :=
  (getComp parsed "house_number").toList
  ++ (getComp parsed "road").toList
  ++ ((getComp parsed "unit").map (fun u => "Unit " ++ u)).toList
  ++ (getComp parsed "city").toList
  ++ ((getComp parsed "state").map String.toUpper).toList
  ++ (getComp parsed "postcode").toList
  ++ ((getComp parsed "country").map String.toUpper).toList

/-- Translated from normalize_address in src/postal/python_api.rs:
parse, rebuild the part list, fail when it is empty, else join with
comma-space. -/
def normalize_address
    (native : String → Except String ParsedAddress)
    (address : String) : Except PostalError String :=
  match parse_address_string native address with
  | .error e => .error e
  | .ok parsed =>
    let parts := normalizedParts parsed
    if parts.isEmpty then
      .error (.LibpostalError
        "Failed to parse any recognizable address components from the input. The address may be malformed or in an unsupported format")
    else
      .ok (String.intercalate ", " parts)

/-- The outcome of a completed subprocess: exit status success flag and
captured standard error, as used by download_data. -/
structure CommandOutput where
  success : Bool
  stderr : String

/-- Translated from download_data in src/postal/python_api.rs. Running
the external download subprocess is the parameter `output`: a launch
error carries the OS error text, a completed run carries its exit status
and captured stderr. -/
def download_data
    (output : Except String CommandOutput)
    (force : Bool) : Except PostalError Bool :=
  match output with
  | .ok o =>
    if o.success then
      .ok true
    else
      .error (.ConfigurationError
        ("Data download failed: " ++ o.stderr
          ++ ". Please check your internet connection and ensure you have write permissions to /usr/local/share/libpostal"))
  | .error e =>
    .error (.ConfigurationError
      ("Failed to run data download script: " ++ e
        ++ ". Ensure Python is installed and the data_manager.py script is accessible"))

/-- Address component bit-flag constants from src/postal/constants.rs,
as 64-bit values represented in Nat. -/
def ADDRESS_NONE : Nat := 0

def ADDRESS_ANY : Nat := 0xFFFFFFFFFFFFFFFF

def ADDRESS_NAME : Nat := 1 <<< 0

def ADDRESS_HOUSE_NUMBER : Nat := 1 <<< 1

def ADDRESS_STREET : Nat := 1 <<< 2

def ADDRESS_UNIT : Nat := 1 <<< 3

def ADDRESS_LEVEL : Nat := 1 <<< 4

def ADDRESS_STAIRCASE : Nat := 1 <<< 5

def ADDRESS_ENTRANCE : Nat := 1 <<< 6

def ADDRESS_CATEGORY : Nat := 1 <<< 7

def ADDRESS_NEAR : Nat := 1 <<< 8

def ADDRESS_TOPONYM : Nat := 1 <<< 9

def ADDRESS_POSTAL_CODE : Nat := 1 <<< 10

def ADDRESS_PO_BOX : Nat := 1 <<< 11

def ADDRESS_ALL : Nat := ADDRESS_ANY

/-- The twelve named single-bit component flags, in declaration order. -/
def addressComponentFlags : List Nat :=
  [ADDRESS_NAME, ADDRESS_HOUSE_NUMBER, ADDRESS_STREET, ADDRESS_UNIT,
   ADDRESS_LEVEL, ADDRESS_STAIRCASE, ADDRESS_ENTRANCE, ADDRESS_CATEGORY,
   ADDRESS_NEAR, ADDRESS_TOPONYM, ADDRESS_POSTAL_CODE, ADDRESS_PO_BOX]

/-- Translated from get_all_component_types in src/postal/constants.rs. -/
def get_all_component_types : List String :=
  ["house_number", "road", "unit", "level", "staircase", "entrance",
   "po_box", "postcode", "suburb", "city_district", "city", "island",
   "state_district", "state", "country_region", "country", "world_region",
   "category", "near", "toponym"]

/-- Translated from is_valid_component_type in src/postal/constants.rs. -/
def is_valid_component_type (component_type : String) : Bool :=
  get_all_component_types.contains component_type

/-- The spec's description of the normalize output, written from its
words: select house_number, road, "Unit " followed by unit, city,
upper-cased state, postcode, upper-cased country, in that fixed order,
omit the absent ones, and join with comma-space. Kept separate from
normalizedParts so the two renderings can be compared. -/
def specNormalizeOutput (parsed : ParsedAddress) : String :=
  String.intercalate ", " (List.filterMap id
    [getComp parsed "house_number",
     getComp parsed "road",
     (getComp parsed "unit").map (fun u => "Unit " ++ u),
     getComp parsed "city",
     (getComp parsed "state").map String.toUpper,
     getComp parsed "postcode",
     (getComp parsed "country").map String.toUpper])

/-- Selecting the present options of a list, one step. -/
theorem filterMap_id_cons (o : Option String) (l : List (Option String)) :
    List.filterMap id (o :: l) = o.toList ++ List.filterMap id l := by
  cases o <;> simp

/-- The source's pushed part list agrees with the spec's selection. -/
theorem normalizedParts_eq_spec_selection (parsed : ParsedAddress) :
    normalizedParts parsed = List.filterMap id
      [getComp parsed "house_number",
       getComp parsed "road",
       (getComp parsed "unit").map (fun u => "Unit " ++ u),
       getComp parsed "city",
       (getComp parsed "state").map String.toUpper,
       getComp parsed "postcode",
       (getComp parsed "country").map String.toUpper] := by
  simp only [filterMap_id_cons, List.filterMap_nil, List.append_nil]
  simp [normalizedParts]

/-- normalize_address reaches the native call and renders the parts when
the guard passes, the native parse succeeds and some part is present. -/
theorem normalize_address_ok_of_parts
    (native : String → Except String ParsedAddress)
    (address : String) (parsed : ParsedAddress)
    (h0 : (rustTrim address).isEmpty = false)
    (h1 : native address = Except.ok parsed)
    (h2 : normalizedParts parsed ≠ []) :
    normalize_address native address =
      .ok (String.intercalate ", " (normalizedParts parsed)) := by
  simp [normalize_address, parse_address_string, parse_address_with_options,
    h0, h1, h2]

/-- normalize_address fails with the fixed LibpostalError message when
the parse succeeds but yields an empty part list. -/
theorem normalize_address_error_of_nil_parts
    (native : String → Except String ParsedAddress)
    (address : String) (parsed : ParsedAddress)
    (h0 : (rustTrim address).isEmpty = false)
    (h1 : native address = Except.ok parsed)
    (h2 : normalizedParts parsed = []) :
    normalize_address native address =
      .error (.LibpostalError
        "Failed to parse any recognizable address components from the input. The address may be malformed or in an unsupported format") := by
  simp [normalize_address, parse_address_string, parse_address_with_options,
    h0, h1, h2]

/-- With none of the seven selected components present, the pushed part
list is empty. -/
theorem normalizedParts_eq_nil_of_none (parsed : ParsedAddress)
    (h1 : getComp parsed "house_number" = none)
    (h2 : getComp parsed "road" = none)
    (h3 : getComp parsed "unit" = none)
    (h4 : getComp parsed "city" = none)
    (h5 : getComp parsed "state" = none)
    (h6 : getComp parsed "postcode" = none)
    (h7 : getComp parsed "country" = none) :
    normalizedParts parsed = [] := by
  simp [normalizedParts, h1, h2, h3, h4, h5, h6, h7]

/-- Decoding inverts serialization of object fields built from a map. -/
theorem decode_map_fields_serialize (m : ParsedAddress) :
    decode_map_fields (m.map (fun p => (p.1, Json.str p.2))) = some m := by
  induction m with
  | nil => rfl
  | cons head tail ih => simp [decode_map_fields, decode_str, ih]

/-- Decoding inverts the serialization of a parse-result mapping. -/
theorem decode_map_serialize_map (m : ParsedAddress) :
    decode_map (serialize_map m) = some m := by
  simp [decode_map, serialize_map, decode_map_fields_serialize]

/-- Decoding inverts serialization of array elements built from a list. -/
theorem decode_seq_elems_serialize (l : List String) :
    decode_seq_elems (l.map Json.str) = some l := by
  induction l with
  | nil => rfl
  | cons head tail ih => simp [decode_seq_elems, decode_str, ih]

/-- Decoding inverts the serialization of an expansion sequence. -/
theorem decode_seq_serialize_seq (l : List String) :
    decode_seq (serialize_seq l) = some l := by
  simp [decode_seq, serialize_seq, decode_seq_elems_serialize]

/-- Claim C1: on any input that trims to the empty string, parse and
expand both return the InvalidInput error with their respective context
strings; the native library is an arbitrary parameter here and the result
does not depend on it, so no native call is involved. -/
theorem c1_whitespace_input_invalid_before_native
    (native_p : String → Except String ParsedAddress)
    (native_e : String → Except String (List String))
    (address : String) (h : rustTrim address = "") :
    parse_address_with_options native_p address =
      .error (.InvalidInput
        "Address string is empty or contains only whitespace"
        "Valid address parsing requires a non-empty string with actual address content") ∧
    expand_address_string native_e address =
      .error (.InvalidInput
        "Address string is empty or contains only whitespace"
        "Address expansion requires a valid address string to process abbreviations") := by
  have hb : (rustTrim address).isEmpty = true := by rw [h]; decide
  exact ⟨by simp [parse_address_with_options, hb],
    by simp [expand_address_string, hb]⟩

/-- Witness for C1 at the two-space input. -/
theorem c1_whitespace_input_invalid_before_native_witness :
    rustTrim "  " = "" ∧
    parse_address_with_options
      (fun _ => (Except.ok [("road", "x")] : Except String ParsedAddress)) "  " =
      .error (.InvalidInput
        "Address string is empty or contains only whitespace"
        "Valid address parsing requires a non-empty string with actual address content") ∧
    expand_address_string
      (fun _ => (Except.ok ["x"] : Except String (List String))) "  " =
      .error (.InvalidInput
        "Address string is empty or contains only whitespace"
        "Address expansion requires a valid address string to process abbreviations") := by
  have h := c1_whitespace_input_invalid_before_native
    (fun _ => (Except.ok [("road", "x")] : Except String ParsedAddress))
    (fun _ => (Except.ok ["x"] : Except String (List String)))
    "  " (by decide)
  exact ⟨by decide, h.1, h.2⟩

/-- Claim C2: when the guard passes and the native parse succeeds with a
mapping holding at least one selected component, normalize returns the
spec's selection — house_number, road, Unit-prefixed unit, city,
upper-cased state, postcode, upper-cased country, in that order, absences
omitted, joined by comma-space; and on the concrete parse result of
house_number 123 with road main st it returns exactly "123, main st". -/
theorem c2_normalize_fixed_selection
    (native : String → Except String ParsedAddress)
    (address : String) (parsed : ParsedAddress)
    (h0 : (rustTrim address).isEmpty = false)
    (h1 : native address = Except.ok parsed)
    (h2 : normalizedParts parsed ≠ []) :
    normalize_address native address = .ok (specNormalizeOutput parsed) ∧
    normalize_address
      (fun _ => (Except.ok [("house_number", "123"), ("road", "main st")] :
        Except String ParsedAddress)) "123 Main St" = .ok "123, main st" := by
  constructor
  · rw [normalize_address_ok_of_parts native address parsed h0 h1 h2,
      specNormalizeOutput, ← normalizedParts_eq_spec_selection]
  · decide

/-- Witness for C2 at the spec's own example. -/
theorem c2_normalize_fixed_selection_witness :
    (rustTrim "123 Main St").isEmpty = false ∧
    normalizedParts [("house_number", "123"), ("road", "main st")] ≠ [] ∧
    normalize_address
      (fun _ => (Except.ok [("house_number", "123"), ("road", "main st")] :
        Except String ParsedAddress)) "123 Main St" =
      .ok (specNormalizeOutput [("house_number", "123"), ("road", "main st")]) := by
  have h := c2_normalize_fixed_selection
    (fun _ => (Except.ok [("house_number", "123"), ("road", "main st")] :
      Except String ParsedAddress))
    "123 Main St" [("house_number", "123"), ("road", "main st")]
    (by decide) rfl (by decide)
  exact ⟨by decide, by decide, h.1⟩

/-- Claim C3: when the parse underlying normalize succeeds but yields an
empty part list, normalize fails with the LibpostalError naming
unrecognizable components and a possibly malformed or unsupported
address, and its error is never an InvalidInput. -/
theorem c3_normalize_zero_components_libpostal_error
    (native : String → Except String ParsedAddress)
    (address : String) (parsed : ParsedAddress)
    (h0 : (rustTrim address).isEmpty = false)
    (h1 : native address = Except.ok parsed)
    (h2 : normalizedParts parsed = []) :
    normalize_address native address =
      .error (.LibpostalError
        "Failed to parse any recognizable address components from the input. The address may be malformed or in an unsupported format") ∧
    ∀ m c, normalize_address native address ≠ .error (.InvalidInput m c) := by
  have hmain := normalize_address_error_of_nil_parts native address parsed h0 h1 h2
  refine ⟨hmain, fun m c => ?_⟩
  rw [hmain]
  simp

/-- Witness for C3: a parse that succeeds with the empty mapping. -/
theorem c3_normalize_zero_components_libpostal_error_witness :
    (rustTrim "abc").isEmpty = false ∧
    normalizedParts [] = [] ∧
    normalize_address (fun _ => (Except.ok [] : Except String ParsedAddress)) "abc" =
      .error (.LibpostalError
        "Failed to parse any recognizable address components from the input. The address may be malformed or in an unsupported format") := by
  have h := c3_normalize_zero_components_libpostal_error
    (fun _ => (Except.ok [] : Except String ParsedAddress)) "abc" []
    (by decide) rfl rfl
  exact ⟨by decide, rfl, h.1⟩

/-- Claim C4: whenever parse succeeds, parse_to_json returns the
serialization of exactly the parse mapping and decoding gives the mapping
back; whenever expand succeeds, expand_to_json returns the serialization
of exactly the expand sequence and decoding gives the sequence back in
order. -/
theorem c4_to_json_roundtrip
    (native_p : String → Except String ParsedAddress)
    (native_e : String → Except String (List String))
    (ap ae : String) (m : ParsedAddress) (l : List String)
    (hp : parse_address_string native_p ap = Except.ok m)
    (he : expand_address_string native_e ae = Except.ok l) :
    (parse_address_to_json native_p ap = .ok (serialize_map m) ∧
     decode_map (serialize_map m) = some m) ∧
    (expand_address_to_json native_e ae = .ok (serialize_seq l) ∧
     decode_seq (serialize_seq l) = some l) := by
  refine ⟨⟨?_, decode_map_serialize_map m⟩, ?_, decode_seq_serialize_seq l⟩
  · simp [parse_address_to_json, hp, to_json_map]
  · simp [expand_address_to_json, he, to_json_seq]

/-- Witness for C4 at concrete successful parse and expand results. -/
theorem c4_to_json_roundtrip_witness :
    parse_address_string
      (fun _ => (Except.ok [("road", "main st")] : Except String ParsedAddress))
      "main st" = Except.ok [("road", "main st")] ∧
    expand_address_string
      (fun _ => (Except.ok ["main street", "main saint"] : Except String (List String)))
      "main st" = Except.ok ["main street", "main saint"] ∧
    parse_address_to_json
      (fun _ => (Except.ok [("road", "main st")] : Except String ParsedAddress))
      "main st" = .ok (serialize_map [("road", "main st")]) ∧
    decode_map (serialize_map [("road", "main st")]) = some [("road", "main st")] ∧
    decode_seq (serialize_seq ["main street", "main saint"]) =
      some ["main street", "main saint"] := by
  have h := c4_to_json_roundtrip
    (fun _ => (Except.ok [("road", "main st")] : Except String ParsedAddress))
    (fun _ => (Except.ok ["main street", "main saint"] : Except String (List String)))
    "main st" "main st" [("road", "main st")] ["main street", "main saint"]
    (by decide) (by decide)
  exact ⟨by decide, by decide, h.1.1, h.1.2, h.2.2⟩

/-- Claim C5: a native parse failure is wrapped as LibpostalError with
the native message appended to "Failed to parse address: ", and a native
expand failure as LibpostalError with the message appended to
"Failed to expand address: "; the original text is preserved whole. -/
theorem c5_native_failure_wrapped
    (native_p : String → Except String ParsedAddress)
    (native_e : String → Except String (List String))
    (ap ae ep ee : String)
    (hpa : (rustTrim ap).isEmpty = false)
    (hp : native_p ap = Except.error ep)
    (hea : (rustTrim ae).isEmpty = false)
    (he : native_e ae = Except.error ee) :
    parse_address_with_options native_p ap =
      .error (.LibpostalError ("Failed to parse address: " ++ ep)) ∧
    expand_address_string native_e ae =
      .error (.LibpostalError ("Failed to expand address: " ++ ee)) := by
  exact ⟨by simp [parse_address_with_options, hpa, hp],
    by simp [expand_address_string, hea, he]⟩

/-- Witness for C5 with a concrete native error text. -/
theorem c5_native_failure_wrapped_witness :
    (rustTrim "abc").isEmpty = false ∧
    parse_address_with_options
      (fun _ => (Except.error "data files missing" : Except String ParsedAddress))
      "abc" =
      .error (.LibpostalError ("Failed to parse address: " ++ "data files missing")) ∧
    expand_address_string
      (fun _ => (Except.error "data files missing" : Except String (List String)))
      "abc" =
      .error (.LibpostalError ("Failed to expand address: " ++ "data files missing")) := by
  have h := c5_native_failure_wrapped
    (fun _ => (Except.error "data files missing" : Except String ParsedAddress))
    (fun _ => (Except.error "data files missing" : Except String (List String)))
    "abc" "abc" "data files missing" "data files missing"
    (by decide) rfl (by decide) rfl
  exact ⟨by decide, h.1, h.2⟩

/-- Claim C6: is_valid_component_type holds exactly on the labels of
get_all_component_types; in particular it accepts house_number, road,
postcode and country and rejects banana. -/
theorem c6_is_valid_component_type_correct :
    (∀ s : String, is_valid_component_type s = true ↔
      s ∈ get_all_component_types) ∧
    is_valid_component_type "house_number" = true ∧
    is_valid_component_type "road" = true ∧
    is_valid_component_type "postcode" = true ∧
    is_valid_component_type "country" = true ∧
    is_valid_component_type "banana" = false := by
  refine ⟨fun s => ?_, by decide, by decide, by decide, by decide, by decide⟩
  simp [is_valid_component_type]

/-- Claim C7: ADDRESS_ALL and ADDRESS_ANY both equal the all-ones 64-bit
value, ADDRESS_NONE is zero, and the twelve named component flags are the
twelve distinct single-bit values from bit 0 through bit 11, all within
64 bits. -/
theorem c7_address_flag_constants :
    ADDRESS_ALL = ADDRESS_ANY ∧
    ADDRESS_ANY = 2 ^ 64 - 1 ∧
    ADDRESS_NONE = 0 ∧
    addressComponentFlags =
      [2 ^ 0, 2 ^ 1, 2 ^ 2, 2 ^ 3, 2 ^ 4, 2 ^ 5, 2 ^ 6, 2 ^ 7,
       2 ^ 8, 2 ^ 9, 2 ^ 10, 2 ^ 11] ∧
    addressComponentFlags.Pairwise (· ≠ ·) ∧
    ∀ f ∈ addressComponentFlags, f < 2 ^ 64 := by
  refine ⟨rfl, by decide, rfl, by decide, by decide, by decide⟩

/-- Claim C8: a completed download subprocess with failing exit status
yields a ConfigurationError embedding the captured stderr and the
connectivity and permissions hint, and a launch failure yields a
ConfigurationError embedding the launch error and the environment hint;
no other error kind occurs on these paths. -/
theorem c8_download_data_error_contract
    (force : Bool) (o : CommandOutput) (e : String)
    (h : o.success = false) :
    download_data (.ok o) force =
      .error (.ConfigurationError
        ("Data download failed: " ++ o.stderr
          ++ ". Please check your internet connection and ensure you have write permissions to /usr/local/share/libpostal")) ∧
    download_data (.error e) force =
      .error (.ConfigurationError
        ("Failed to run data download script: " ++ e
          ++ ". Ensure Python is installed and the data_manager.py script is accessible")) := by
  exact ⟨by simp [download_data, h], by simp [download_data]⟩

/-- Witness for C8 with a concrete failing run and launch error. -/
theorem c8_download_data_error_contract_witness :
    (CommandOutput.mk false "no network").success = false ∧
    download_data (.ok (CommandOutput.mk false "no network")) false =
      .error (.ConfigurationError
        ("Data download failed: " ++ "no network"
          ++ ". Please check your internet connection and ensure you have write permissions to /usr/local/share/libpostal")) ∧
    download_data (.error "spawn failed") false =
      .error (.ConfigurationError
        ("Failed to run data download script: " ++ "spawn failed"
          ++ ". Ensure Python is installed and the data_manager.py script is accessible")) := by
  have h := c8_download_data_error_contract false
    (CommandOutput.mk false "no network") "spawn failed" rfl
  exact ⟨rfl, h.1, h.2⟩

/-- Claim C9: whenever download_data returns a value rather than an
error, that value is true; the false half of the advertised boolean is
unreachable. -/
theorem c9_download_data_never_returns_false
    (output : Except String CommandOutput) (force b : Bool)
    (h : download_data output force = Except.ok b) : b = true := by
  cases output with
  | error e => simp [download_data] at h
  | ok o =>
    cases ho : o.success with
    | false => simp [download_data, ho] at h
    | true =>
      rw [download_data] at h
      simp [ho] at h
      exact h

/-- Witness for C9 at a successful run. -/
theorem c9_download_data_never_returns_false_witness :
    download_data (.ok (CommandOutput.mk true "")) false = Except.ok true ∧
    true = true :=
  ⟨rfl, c9_download_data_never_returns_false
    (.ok (CommandOutput.mk true "")) false true rfl⟩

/-- Claim C10: a successful parse whose mapping holds none of the seven
selected components — even when it is not empty, for instance only a
suburb — makes normalize fail with the LibpostalError rather than return
an empty or partial string. -/
theorem c10_normalize_fails_without_selected_components
    (native : String → Except String ParsedAddress)
    (address : String) (parsed : ParsedAddress)
    (h0 : (rustTrim address).isEmpty = false)
    (h1 : native address = Except.ok parsed)
    (hhn : getComp parsed "house_number" = none)
    (hrd : getComp parsed "road" = none)
    (hun : getComp parsed "unit" = none)
    (hci : getComp parsed "city" = none)
    (hst : getComp parsed "state" = none)
    (hpc : getComp parsed "postcode" = none)
    (hco : getComp parsed "country" = none) :
    normalize_address native address =
      .error (.LibpostalError
        "Failed to parse any recognizable address components from the input. The address may be malformed or in an unsupported format") :=
  normalize_address_error_of_nil_parts native address parsed h0 h1
    (normalizedParts_eq_nil_of_none parsed hhn hrd hun hci hst hpc hco)

/-- Witness for C10: a nonempty parse result holding only a suburb. -/
theorem c10_normalize_fails_without_selected_components_witness :
    getComp [("suburb", "mission district")] "house_number" = none ∧
    normalize_address
      (fun _ => (Except.ok [("suburb", "mission district")] :
        Except String ParsedAddress)) "somewhere" =
      .error (.LibpostalError
        "Failed to parse any recognizable address components from the input. The address may be malformed or in an unsupported format") := by
  have h := c10_normalize_fails_without_selected_components
    (fun _ => (Except.ok [("suburb", "mission district")] :
      Except String ParsedAddress)) "somewhere" [("suburb", "mission district")]
    (by decide) rfl (by decide) (by decide) (by decide) (by decide)
    (by decide) (by decide) (by decide)
  exact ⟨by decide, h⟩

end OxidizePostal
